import Mathlib

/-!
Shallow embedding of the schema type model and permission layer of
`realm-object-store` (files `src/property.hpp` and
`src/sync/sync_permission.hpp`), together with theorems checking the
specification's claims about them.

`PropertyType` is a C++ `enum class : unsigned char`: an 8-bit value made of
a base kind in the low bits and modifier flags (Indexed = 32, Nullable = 64,
Array = 128) in the high bits.  We embed values as `Nat` (always < 256 in
the program); the bitwise operators are the C++ ones, with complement
truncated to 8 bits as the `static_cast<unsigned char>` does.
-/

namespace RealmOS

/-- Embeds `PropertyType::Int` -/
def PTInt : Nat := 0
/-- Embeds `PropertyType::Bool` -/
def PTBool : Nat := 1
/-- Embeds `PropertyType::String` -/
def PTString : Nat := 2
/-- Embeds `PropertyType::Data` -/
def PTData : Nat := 3
/-- Embeds `PropertyType::Date` -/
def PTDate : Nat := 4
/-- Embeds `PropertyType::Float` -/
def PTFloat : Nat := 5
/-- Embeds `PropertyType::Double` -/
def PTDouble : Nat := 6
/-- Embeds `PropertyType::Object` -/
def PTObject : Nat := 7
/-- Embeds `PropertyType::LinkingObjects` (the header notes it implies Array) -/
def PTLinkingObjects : Nat := 8
/-- Embeds `PropertyType::Any` (deprecated, kept for reading old files) -/
def PTAny : Nat := 9
/-- Embeds `PropertyType::Indexed` -/
def PTIndexed : Nat := 32
/-- Embeds `PropertyType::Nullable` -/
def PTNullable : Nat := 64
/-- Embeds `PropertyType::Array` -/
def PTArray : Nat := 128
/-- Embeds `PropertyType::Flags = Indexed | Nullable | Array` -/
def PTFlags : Nat := PTIndexed ||| PTNullable ||| PTArray

/-- Embeds `operator&(PropertyType, PropertyType)` from property.hpp. -/
def ptAnd (a b : Nat) : Nat := a &&& b

/-- Embeds `operator|(PropertyType, PropertyType)` from property.hpp. -/
def ptOr (a b : Nat) : Nat := a ||| b

/-- Embeds `operator~(PropertyType)` from property.hpp: integer complement cast
back to `unsigned char`, i.e. the low 8 bits are flipped. -/
def ptNot (a : Nat) : Nat := 255 ^^^ (a % 256)

/-- Embeds `operator==(PropertyType, PropertyType)` from property.hpp: it compares
`a & ~Flags` with `b & ~Flags`, i.e. only the base-kind bits. -/
def ptEq (a b : Nat) : Bool := ptAnd a (ptNot PTFlags) == ptAnd b (ptNot PTFlags)

/-- Embeds `operator!=(PropertyType, PropertyType)` from property.hpp. -/
def ptNe (a b : Nat) : Bool := !(ptEq a b)

/-- Embeds `is_array(PropertyType)` from property.hpp: tests the Array bit. -/
def is_array (a : Nat) : Bool := ptAnd a PTArray == PTArray

/-- Embeds `string_for_property_type` from property.hpp.  Both C++ `switch`
statements compare the raw underlying value of the scoped enum against the
case labels (a `switch` does not invoke the overloaded masked
`operator==`); only the array branch masks the flags off first.  The
`REALM_COMPILER_HINT_UNREACHABLE()` default branches are embedded as
`none`. -/
def string_for_property_type (type : Nat) : Option String :=
  if is_array type then
    match ptAnd type (ptNot PTFlags) with
    | 2 => some "[string]"
    | 0 => some "[int]"
    | 1 => some "[bool]"
    | 4 => some "[date]"
    | 3 => some "[data]"
    | 6 => some "[double]"
    | 5 => some "[float]"
    | 7 => some "[object]"
    | 9 => some "[any]"
    | 8 => some "[linking objects]"
    | _ => none
  else
    match type with
    | 2 => some "string"
    | 0 => some "int"
    | 1 => some "bool"
    | 4 => some "date"
    | 3 => some "data"
    | 6 => some "double"
    | 5 => some "float"
    | 7 => some "object"
    | 9 => some "any"
    | 8 => some "linking objects"
    | _ => none

/-- Embeds `struct Property` from property.hpp.  `table_column` is a `size_t`
storage index (defaulted to `size_t(-1)` in the source; the claims never
depend on the default, so the field is plain here). -/
structure Property where
  name : String
  type : Nat
  object_type : String
  link_origin_property_name : String
  is_primary : Bool := false
  is_indexed : Bool := false
  is_nullable : Bool := false
  table_column : Nat

/-- Embeds `Property::requires_index()` from property.hpp. -/
def Property.requires_index (p : Property) : Bool := p.is_primary || p.is_indexed

/-- Embeds `Property::is_indexable()` from property.hpp (masked comparisons). -/
def Property.is_indexable (p : Property) : Bool :=
  ptEq p.type PTInt || ptEq p.type PTBool || ptEq p.type PTDate || ptEq p.type PTString

/-- Embeds `Property::type_is_nullable()` from property.hpp: `!(is_array(type) &&
type == PropertyType::Object)` with the masked `==`. -/
def Property.type_is_nullable (p : Property) : Bool :=
  !(is_array p.type && ptEq p.type PTObject)

/-- Embeds `Property::type_string()` from property.hpp.  After the `is_array`
test, the C++ `switch (type)` compares the raw value against
`PropertyType::Object` (7) and `PropertyType::LinkingObjects` (8); the
default case calls `string_for_property_type`. -/
def Property.type_string (p : Property) : Option String :=
  if is_array p.type then
    some ("array<" ++ p.object_type ++ ">")
  else if p.type = 7 then
    some ("<" ++ p.object_type ++ ">")
  else if p.type = 8 then
    some ("linking objects<" ++ p.object_type ++ ">")
  else
    string_for_property_type p.type

/-- Embeds `operator==(Property const&, Property const&)` from property.hpp: it
does not check `table_column`, uses the masked `PropertyType` equality for
`type`, and compares `requires_index()` rather than `is_indexed`. -/
def propertyEq (lft rgt : Property) : Bool :=
  ptEq lft.type rgt.type
    && lft.is_primary == rgt.is_primary
    && lft.is_nullable == rgt.is_nullable
    && (lft.requires_index == rgt.requires_index)
    && lft.name == rgt.name
    && lft.object_type == rgt.object_type
    && lft.link_origin_property_name == rgt.link_origin_property_name

/-- A rendering function that follows the specification's description of
`Property::type_string` word for word, for comparison with the embedded
source function: "array<T>" for arrays of objects, "<T>" for to-one object
links, "linking objects<T>" when the base kind is LinkingObjects, else the
PropertyType's canonical name.  "Array of objects" and "to-one Object link"
are read with the schema model's own notion of type matching, i.e. the
masked base-kind equality. -/
def spec_type_string (p : Property) : Option String :=
  if is_array p.type && ptEq p.type PTObject then
    some ("array<" ++ p.object_type ++ ">")
  else if !is_array p.type && ptEq p.type PTObject then
    some ("<" ++ p.object_type ++ ">")
  else if ptEq p.type PTLinkingObjects then
    some ("linking objects<" ++ p.object_type ++ ">")
  else
    string_for_property_type p.type

/-- Embeds `Permission::AccessLevel` from sync_permission.hpp, an enum class with
underlying values None = 0, Read = 1, Write = 2, Admin = 3. -/
inductive AccessLevel where
  | None
  | Read
  | Write
  | Admin
deriving DecidableEq, Fintype

/-- The underlying integral value of an `AccessLevel` enumerator. -/
def AccessLevel.toNat : AccessLevel → Nat
  | AccessLevel.None => 0
  | AccessLevel.Read => 1
  | AccessLevel.Write => 2
  | AccessLevel.Admin => 3

/-- Embeds `Permission::Condition` from sync_permission.hpp: a manually
discriminated union over a user id or a key-value pair, embedded as a sum
type. -/
inductive Condition where
  | UserId (user_id : String)
  | KeyValue (key value : String)
deriving DecidableEq

/-- Embeds `struct Permission` from sync_permission.hpp. -/
structure Permission where
  path : String
  access : AccessLevel
  condition : Condition
deriving DecidableEq

/-- Embeds `struct PermissionChangeException` from sync_permission.hpp: a runtime
error carrying a message and a numeric code. -/
structure PermissionChangeException where
  message : String
  code : Nat
deriving DecidableEq

/-- The out-of-bounds error documented for `PermissionResults::get`. -/
inductive ResultsError where
  | OutOfBoundsIndexException
deriving DecidableEq

/-- Modelled from the spec: the implementations of
`PermissionResults::size` and `PermissionResults::get` are not among the
given sources — sync_permission.hpp only declares them, documenting that
`size()` is the number of permissions represented and that `get` "Throws
OutOfBoundsIndexException if index >= size()" and otherwise returns the
permission for the given index.  The view is modelled as the list of
Permission records it currently contains. -/
structure PermissionResults where
  records : List Permission

/-- Modelled from the spec: `PermissionResults::size`, the count of records
in the view. -/
def PermissionResults.size (r : PermissionResults) : Nat := r.records.length

/-- Modelled from the spec: `PermissionResults::get`, the record at the
index, or the out-of-bounds error when `index >= size()`. -/
def PermissionResults.get (r : PermissionResults) (index : Nat) :
    Except ResultsError Permission :=
  match r.records[index]? with
  | some p => Except.ok p
  | none => Except.error ResultsError.OutOfBoundsIndexException

/-- Observable events of one `Permissions::set_permission` call, in the
order they happen. -/
inductive PermEvent where
  | openedManagementRealm
  | wroteChangeRequest (p : Permission)
  | localCommit
  | callbackInvoked (error : Option PermissionChangeException)
  | remoteProcessed
deriving DecidableEq

/-- Modelled from the spec: the environment a `set_permission` call runs
in — whether opening the user's management realm fails, whether writing
the change-request record fails to commit locally, and whether the remote
service gets to process the committed request afterwards. -/
structure SetPermissionEnv where
  openError : Option PermissionChangeException
  writeError : Option PermissionChangeException
  remoteWillProcess : Bool

/-- Modelled from the spec: `Permissions::set_permission` is declared but
not implemented in the given sources.  Per the spec it opens the user's
management realm, writes a new change-request record encoding the desired
grant, and completes the callback with a null error once the write commits
locally — not once the remote service has processed it; an open or
submission failure is surfaced to the same callback as an error.  The call
is embedded as the trace of events it produces. -/
def set_permission (env : SetPermissionEnv) (p : Permission) : List PermEvent :=
  match env.openError with
  | some e => [PermEvent.callbackInvoked (some e)]
  | none =>
    PermEvent.openedManagementRealm ::
      match env.writeError with
      | some e => [PermEvent.callbackInvoked (some e)]
      | none =>
        PermEvent.wroteChangeRequest p :: PermEvent.localCommit ::
          PermEvent.callbackInvoked none ::
            (if env.remoteWillProcess then [PermEvent.remoteProcessed] else [])

/-! Theorems about the embedded program. -/

/-- C1: `PropertyType` equality is reflexive whatever modifier bits are
set; it holds exactly when the base-kind bits (the bits left after masking
out `Flags`) agree; `!=` holds whenever the base kinds differ; and two
values differing only in modifier flags compare equal. -/
theorem propertyType_eq_masks_flags (t u f : Nat) :
    ptEq t t = true ∧
    (ptEq t u = true ↔ ptAnd t (ptNot PTFlags) = ptAnd u (ptNot PTFlags)) ∧
    (ptAnd t (ptNot PTFlags) ≠ ptAnd u (ptNot PTFlags) → ptNe t u = true) ∧
    (ptAnd f (ptNot PTFlags) = 0 → ptEq (ptOr t f) t = true) := by
  have h31 : ptNot PTFlags = 31 := by decide
  refine ⟨by simp [ptEq], by simp [ptEq], ?_, ?_⟩
  · intro h
    simpa [ptNe, ptEq] using h
  · intro hf
    rw [h31] at hf
    simp only [ptAnd] at hf
    simp only [ptEq, ptOr, ptAnd, h31, beq_iff_eq]
    rw [Nat.and_distrib_right, hf, Nat.or_zero]

/-- Witness for C1 at concrete inputs: base kinds Float (5) and Double (6)
differ so `5 != 6`, and Int carrying the Indexed and Nullable flags (96)
compares equal to plain Int. -/
theorem propertyType_eq_masks_flags_witness :
    ptNe 5 6 = true ∧ ptEq (ptOr 0 96) 0 = true :=
  ⟨(propertyType_eq_masks_flags 5 6 96).2.2.1 (by decide),
   (propertyType_eq_masks_flags 0 0 96).2.2.2 (by decide)⟩

/-- C2 counterexample: `Indexed|Int` (value 32) has the defined base kind
Int, yet `string_for_property_type` reaches the unreachable default
branch, because the non-array `switch` compares the raw unmasked value
against the case labels. -/
theorem string_for_property_type_indexed_int_unreachable :
    ptAnd 32 (ptNot PTFlags) = PTInt ∧ is_array 32 = false ∧
    string_for_property_type 32 = none := by decide

set_option maxRecDepth 8192 in
/-- C2 (amended): with the Array bit set, `string_for_property_type`
returns a defined bracketed name iff the masked base kind is one of the
ten defined kinds, whatever the other modifier bits; without the Array bit
it returns a defined name iff the raw unmasked value is one of the ten
kinds, so an Indexed or Nullable modifier alone drives even a defined base
kind into the fatal unreachable branch. -/
theorem string_for_property_type_defined_iff (t : Nat) (ht : t < 256) :
    (is_array t = true →
      ((string_for_property_type t).isSome = true ↔ ptAnd t (ptNot PTFlags) < 10)) ∧
    (is_array t = false →
      ((string_for_property_type t).isSome = true ↔ t < 10)) := by
  have key : ∀ v : Fin 256,
      (is_array v.val = true →
        ((string_for_property_type v.val).isSome = true ↔
          ptAnd v.val (ptNot PTFlags) < 10)) ∧
      (is_array v.val = false →
        ((string_for_property_type v.val).isSome = true ↔ v.val < 10)) := by decide
  exact key ⟨t, ht⟩

/-- Witness for C2 (amended) at `Array|String` (130): the Array branch is
taken and a defined name is produced. -/
theorem string_for_property_type_defined_iff_witness :
    (string_for_property_type 130).isSome = true :=
  ((string_for_property_type_defined_iff 130 (by decide)).1 (by decide)).mpr (by decide)

/-- C3 counterexample: for a `Property` of type `Array|Int` (128) the
claimed case analysis (array of objects / to-one object link / linking
objects / otherwise the canonical name) yields the canonical name
"[int]", but `type_string()` takes the array branch for every
Array-flagged type and returns "array<>" built from the empty
`object_type`. -/
theorem type_string_array_int_counterexample :
    Property.type_string ⟨"ints", 128, "", "", false, false, false, 0⟩ = some "array<>" ∧
    spec_type_string ⟨"ints", 128, "", "", false, false, false, 0⟩ = some "[int]" ∧
    (some "array<>" : Option String) ≠ some "[int]" := by decide

/-- C3 (amended): `type_string()` returns "array<object_type>" whenever
the Array bit is set, whatever the base kind; "<object_type>" when the raw
type value is exactly Object and "linking objects<object_type>" when it is
exactly LinkingObjects (no modifier bits in either case); otherwise it
falls through to `string_for_property_type`. -/
theorem type_string_cases (p : Property) :
    (is_array p.type = true →
      p.type_string = some ("array<" ++ p.object_type ++ ">")) ∧
    (p.type = PTObject → p.type_string = some ("<" ++ p.object_type ++ ">")) ∧
    (p.type = PTLinkingObjects →
      p.type_string = some ("linking objects<" ++ p.object_type ++ ">")) ∧
    (is_array p.type = false → p.type ≠ PTObject → p.type ≠ PTLinkingObjects →
      p.type_string = string_for_property_type p.type) := by
  refine ⟨?_, ?_, ?_, ?_⟩
  · intro h
    simp [Property.type_string, h]
  · intro h
    simp [Property.type_string, h, PTObject, is_array, ptAnd, PTArray]
  · intro h
    simp [Property.type_string, h, PTLinkingObjects, is_array, ptAnd, PTArray]
  · intro ha h7 h8
    simp only [PTObject] at h7
    simp only [PTLinkingObjects] at h8
    simp [Property.type_string, ha, h7, h8]

/-- Witness for C3 (amended) at a to-one Object link targeting "Dog". -/
theorem type_string_cases_witness :
    Property.type_string ⟨"pet", 7, "Dog", "", false, false, false, 0⟩ = some "<Dog>" :=
  (type_string_cases ⟨"pet", 7, "Dog", "", false, false, false, 0⟩).2.1 (by decide)

/-- C4: `string_for_property_type` maps Int to "int" and Array|Int to
"[int]", and a Property of type Object (no Array bit) with object_type
"Dog" renders as "<Dog>" via `type_string()`. -/
theorem property_type_string_literals :
    string_for_property_type PTInt = some "int" ∧
    string_for_property_type (ptOr PTArray PTInt) = some "[int]" ∧
    Property.type_string ⟨"pet", PTObject, "Dog", "", false, false, false, 0⟩ =
      some "<Dog>" := by
  decide

/-- C5: Property equality ignores `table_column` — two values identical in
all semantic fields but differing in storage column compare equal — and a
differing `name` makes two values unequal. -/
theorem property_eq_ignores_table_column (p q : Property) :
    (p.name = q.name → p.type = q.type → p.object_type = q.object_type →
      p.link_origin_property_name = q.link_origin_property_name →
      p.is_primary = q.is_primary → p.is_indexed = q.is_indexed →
      p.is_nullable = q.is_nullable → p.table_column ≠ q.table_column →
      propertyEq p q = true) ∧
    (p.name ≠ q.name → propertyEq p q = false) := by
  constructor
  · intro h1 h2 h3 h4 h5 h6 h7 _
    simp [propertyEq, Property.requires_index, ptEq, h1, h2, h3, h4, h5, h6, h7]
  · intro h
    have hn : (p.name == q.name) = false := beq_eq_false_iff_ne.mpr h
    simp [propertyEq, hn]

/-- Concrete property for the C5 witness. -/
def propColA : Property := ⟨"age", 0, "", "", false, false, false, 0⟩
/-- The same property as `propColA` except for `table_column`. -/
def propColB : Property := ⟨"age", 0, "", "", false, false, false, 7⟩
/-- The same property as `propColA` except for `name`. -/
def propColC : Property := ⟨"years", 0, "", "", false, false, false, 0⟩

/-- Witness for C5: equal but for the storage column means equal; a
different name means unequal. -/
theorem property_eq_ignores_table_column_witness :
    propertyEq propColA propColB = true ∧ propertyEq propColA propColC = false :=
  ⟨(property_eq_ignores_table_column propColA propColB).1 rfl rfl rfl rfl rfl rfl rfl
      (by decide),
   (property_eq_ignores_table_column propColA propColC).2 (by decide)⟩

/-- C6: `type_is_nullable()` is false exactly when the Array bit is set
and the base kind is Object (an array of objects), and true for every
other type, whatever the other modifier flags. -/
theorem type_is_nullable_iff_array_of_object (p : Property) :
    p.type_is_nullable = false ↔
      (is_array p.type = true ∧ ptAnd p.type (ptNot PTFlags) = PTObject) := by
  have h7 : (7 : Nat) &&& 31 = 7 := by decide
  simp [Property.type_is_nullable, ptEq, PTObject, ptAnd, ptNot, PTFlags,
    PTIndexed, PTNullable, PTArray, is_array, h7]

/-- C7: `AccessLevel` underlying values are totally ordered with
None < Read < Write < Admin, and a Write grant satisfies any check
requiring at least Read. -/
theorem accessLevel_total_order :
    (AccessLevel.None.toNat < AccessLevel.Read.toNat ∧
     AccessLevel.Read.toNat < AccessLevel.Write.toNat ∧
     AccessLevel.Write.toNat < AccessLevel.Admin.toNat) ∧
    (∀ a b : AccessLevel, a.toNat < b.toNat ∨ a = b ∨ b.toNat < a.toNat) ∧
    AccessLevel.Read.toNat ≤ AccessLevel.Write.toNat := by decide

/-- C8: `PermissionResults::get` fails with the out-of-bounds error iff
the index is at least `size()`, and returns a permission record for every
index below `size()`. -/
theorem permissionResults_get_bounds (r : PermissionResults) (i : Nat) :
    (r.get i = Except.error ResultsError.OutOfBoundsIndexException ↔ r.size ≤ i) ∧
    (i < r.size → ∃ p, r.get i = Except.ok p) := by
  constructor
  · constructor
    · intro he
      by_contra hlt
      push_neg at hlt
      have hs : r.records[i]? = some (r.records.get ⟨i, hlt⟩) :=
        List.getElem?_eq_getElem hlt
      simp [PermissionResults.get, hs] at he
    · intro hle
      have hn : r.records[i]? = none := List.getElem?_eq_none hle
      simp [PermissionResults.get, hn]
  · intro hlt
    have hs : r.records[i]? = some (r.records.get ⟨i, hlt⟩) :=
      List.getElem?_eq_getElem hlt
    exact ⟨r.records.get ⟨i, hlt⟩, by simp [PermissionResults.get, hs]⟩

/-- Concrete permission record for the C8 witness. -/
def permRecordSample : Permission :=
  ⟨"/A/Data", AccessLevel.Write, Condition.UserId "userB"⟩

/-- Witness for C8 on a one-record result set at index 0. -/
theorem permissionResults_get_bounds_witness :
    ∃ p, PermissionResults.get ⟨[permRecordSample]⟩ 0 = Except.ok p :=
  (permissionResults_get_bounds ⟨[permRecordSample]⟩ 0).2 (by decide)

/-- C9: on a successful run `set_permission` opens the management realm,
writes the change-request record, and invokes the callback with a null
error immediately after the local commit — in particular before any
remote processing, which can only appear later in the trace — while an
open or submission failure is surfaced to the same callback as an
error. -/
theorem set_permission_callback_on_local_commit (env : SetPermissionEnv)
    (p : Permission) :
    (env.openError = none → env.writeError = none →
      ∃ rest, set_permission env p =
        [PermEvent.openedManagementRealm, PermEvent.wroteChangeRequest p,
         PermEvent.localCommit, PermEvent.callbackInvoked none] ++ rest ∧
        PermEvent.remoteProcessed ∉
          [PermEvent.openedManagementRealm, PermEvent.wroteChangeRequest p,
           PermEvent.localCommit, PermEvent.callbackInvoked none]) ∧
    (∀ e, env.openError = some e →
      PermEvent.callbackInvoked (some e) ∈ set_permission env p) ∧
    (∀ e, env.openError = none → env.writeError = some e →
      PermEvent.callbackInvoked (some e) ∈ set_permission env p) := by
  refine ⟨?_, ?_, ?_⟩
  · intro h1 h2
    refine ⟨if env.remoteWillProcess then [PermEvent.remoteProcessed] else [], ?_, ?_⟩
    · simp [set_permission, h1, h2]
    · simp
  · intro e h1
    simp [set_permission, h1]
  · intro e h1 h2
    simp [set_permission, h1, h2]

/-- Concrete grant for the C9 witness. -/
def permGrantSample : Permission :=
  ⟨"/A/Data", AccessLevel.Write, Condition.UserId "userB"⟩

/-- Witness for C9: with no open or write failure, the trace is the
opening, the record write, the local commit and the success callback,
with remote processing strictly later. -/
theorem set_permission_callback_on_local_commit_witness :
    ∃ rest, set_permission ⟨none, none, true⟩ permGrantSample =
      [PermEvent.openedManagementRealm, PermEvent.wroteChangeRequest permGrantSample,
       PermEvent.localCommit, PermEvent.callbackInvoked none] ++ rest ∧
      PermEvent.remoteProcessed ∉
        [PermEvent.openedManagementRealm, PermEvent.wroteChangeRequest permGrantSample,
         PermEvent.localCommit, PermEvent.callbackInvoked none] :=
  (set_permission_callback_on_local_commit ⟨none, none, true⟩ permGrantSample).1 rfl rfl

/-- C10: Property equality is insensitive to the type's modifier flags
and to indexing details beyond `requires_index()`: when all other
semantic fields agree and the base kinds agree, the values compare equal
when `is_primary` and `is_indexed` both agree, and also when
`is_indexed` differs while both values have `is_primary` set. -/
theorem property_eq_modifier_insensitive (p q : Property)
    (hname : p.name = q.name) (hot : p.object_type = q.object_type)
    (hlo : p.link_origin_property_name = q.link_origin_property_name)
    (hnul : p.is_nullable = q.is_nullable)
    (hbase : ptAnd p.type (ptNot PTFlags) = ptAnd q.type (ptNot PTFlags)) :
    (p.is_primary = q.is_primary → p.is_indexed = q.is_indexed →
      propertyEq p q = true) ∧
    (p.is_primary = true → q.is_primary = true → propertyEq p q = true) := by
  constructor
  · intro h1 h2
    simp [propertyEq, Property.requires_index, ptEq, hname, hot, hlo, hnul, hbase,
      h1, h2]
  · intro h1 h2
    simp [propertyEq, Property.requires_index, ptEq, hname, hot, hlo, hnul, hbase,
      h1, h2]

/-- Concrete primary-keyed property for the C10 witness. -/
def propPrimA : Property := ⟨"age", 0, "", "", true, false, false, 0⟩
/-- Same as `propPrimA` but with type Indexed|Nullable|Int, `is_indexed`
set and a different storage column. -/
def propPrimB : Property := ⟨"age", 96, "", "", true, true, false, 5⟩

/-- Witness for C10: Int versus Indexed|Nullable|Int with differing
`is_indexed` but both primary compare equal. -/
theorem property_eq_modifier_insensitive_witness :
    propertyEq propPrimA propPrimB = true :=
  (property_eq_modifier_insensitive propPrimA propPrimB rfl rfl rfl rfl
    (by decide)).2 rfl rfl

end RealmOS

